import Mathlib

/-!
Verification of the extension (plugin) runtime and guild-scoped event
dispatch engine of the sudobot repository: the `ExtensionManager` service,
its guild-id resolver table, the dispatch wrapper, the per-guild enablement
rule, the metadata client, the install pipeline and the extension loader.

The definitions below are a shallow embedding of the TypeScript source.
Event arguments are modelled by a small dynamic-value type `JsValue` with
JavaScript property-access, method-call, truthiness and nullish-coalescing
semantics, so that the resolver functions of the source translate directly
and their exception behaviour (a `TypeError` on a nullish base) is
preserved.
-/

namespace Sudobot

/-- A dynamic JavaScript value, as far as the guild-id resolvers inspect
them: `undefined`, `null`, booleans, strings, plain objects with named
fields, and nullary methods (used for `Collection.first()` and
`Channel.isDMBased()`). -/
inductive JsValue where
  | undefined : JsValue
  | nul : JsValue
  | bool (b : Bool) : JsValue
  | str (s : String) : JsValue
  | obj (fields : List (String × JsValue)) : JsValue
  | fn0 (ret : JsValue) : JsValue

/-- `v === undefined`. -/
def JsValue.isUndefined : JsValue → Bool
  | .undefined => true
  | _ => false

/-- `v === null`. -/
def JsValue.isNull : JsValue → Bool
  | .nul => true
  | _ => false

/-- `v == null` (nullish: `undefined` or `null`). -/
def jsNullish : JsValue → Bool
  | .undefined => true
  | .nul => true
  | _ => false

/-- JavaScript truthiness, restricted to the constructors we model. -/
def jsTruthy : JsValue → Bool
  | .undefined => false
  | .nul => false
  | .bool b => b
  | .str s => s ≠ ""
  | .obj _ => true
  | .fn0 _ => true

/-- Field lookup in an object literal. -/
def jsGetField : List (String × JsValue) → String → Option JsValue
  | [], _ => none
  | (k, v) :: rest, key => if k = key then some v else jsGetField rest key

/-- Property access `v.key`: throws a `TypeError` when the base is nullish,
yields `undefined` for a missing field or a primitive base. -/
def jsGet (v : JsValue) (key : String) : Except String JsValue :=
  match v with
  | .undefined =>
      .error ("TypeError: Cannot read properties of undefined (reading " ++ key ++ ")")
  | .nul =>
      .error ("TypeError: Cannot read properties of null (reading " ++ key ++ ")")
  | .obj fields => .ok ((jsGetField fields key).getD .undefined)
  | _ => .ok .undefined

/-- Nullary method call `v.key()`: property access followed by a call,
which throws when the property is not a function. -/
def jsCall0 (v : JsValue) (key : String) : Except String JsValue := do
  let f ← jsGet v key
  match f with
  | .fn0 r => pure r
  | _ => .error ("TypeError: " ++ key ++ " is not a function")

/-- `a ?? b` on already-computed values. -/
def jsCoalesce (a b : JsValue) : JsValue :=
  if jsNullish a then b else a

/-- String coercion used when a resolved guild id is used as a
configuration key or logged. -/
def jsKey : JsValue → String
  | .str s => s
  | .undefined => "undefined"
  | .nul => "null"
  | .bool true => "true"
  | .bool false => "false"
  | .obj _ => "[object Object]"
  | .fn0 _ => "function"

/-- Positional argument access with JavaScript destructuring semantics:
a missing position is `undefined`. -/
def argN (args : List JsValue) (i : Nat) : JsValue :=
  (args.get? i).getD .undefined

/-- The type of a guild-id resolver: from the raw event arguments to a
snowflake, `null` or `undefined` — or a thrown `TypeError`. -/
def Resolver : Type := List JsValue → Except String JsValue

/-- `([data]) => data.guildId` (applicationCommandPermissionsUpdate). -/
def resolverAppCmdPerms : Resolver := fun args =>
  jsGet (argN args 0) "guildId"

/-- `([data]) => data?.guild.id ?? undefined` (autoModeration events). -/
def resolverAutoMod : Resolver := fun args => do
  let data := argN args 0
  let v ←
    if jsNullish data then pure JsValue.undefined
    else do
      let g ← jsGet data "guild"
      jsGet g "id"
  pure (jsCoalesce v JsValue.undefined)

/-- `([data]) => data?.guild?.id ?? data?.guildId ?? undefined`
(message / interaction events). -/
def resolverMessage : Resolver := fun args => do
  let data := argN args 0
  let v1 ←
    if jsNullish data then pure JsValue.undefined
    else do
      let g ← jsGet data "guild"
      if jsNullish g then pure JsValue.undefined else jsGet g "id"
  if !jsNullish v1 then pure v1
  else do
    let v2 ← if jsNullish data then pure JsValue.undefined else jsGet data "guildId"
    pure (jsCoalesce v2 JsValue.undefined)

/-- `([data]) => data.first()?.guildId ?? undefined` (messageDeleteBulk). -/
def resolverMsgDeleteBulk : Resolver := fun args => do
  let data := argN args 0
  let f ← jsCall0 data "first"
  let v ← if jsNullish f then pure JsValue.undefined else jsGet f "guildId"
  pure (jsCoalesce v JsValue.undefined)

/-- `([data]) => (data.isDMBased() ? undefined : data.guildId)`
(channel events). -/
def resolverChannel : Resolver := fun args => do
  let data := argN args 0
  let b ← jsCall0 data "isDMBased"
  if jsTruthy b then pure JsValue.undefined else jsGet data "guildId"

/-- `([data]) => data?.guild?.id ?? undefined` (emoji events). -/
def resolverEmoji : Resolver := fun args => do
  let data := argN args 0
  let v ←
    if jsNullish data then pure JsValue.undefined
    else do
      let g ← jsGet data "guild"
      if jsNullish g then pure JsValue.undefined else jsGet g "id"
  pure (jsCoalesce v JsValue.undefined)

/-- `([data]) => data?.message.guildId ?? undefined` (messageReaction
events). -/
def resolverReaction : Resolver := fun args => do
  let data := argN args 0
  let v ←
    if jsNullish data then pure JsValue.undefined
    else do
      let m ← jsGet data "message"
      jsGet m "guildId"
  pure (jsCoalesce v JsValue.undefined)

/-- `([data]) => data?.guildId ?? undefined` (messageReactionRemoveAll). -/
def resolverReactionRemoveAll : Resolver := fun args => do
  let data := argN args 0
  let v ← if jsNullish data then pure JsValue.undefined else jsGet data "guildId"
  pure (jsCoalesce v JsValue.undefined)

/-- `([, data]) => data.id ?? undefined` (guildAuditLogEntryCreate,
guildMembersChunk, threadListSync: the guild is the second argument). -/
def resolverSecondArgId : Resolver := fun args => do
  let d := argN args 1
  let v ← jsGet d "id"
  pure (jsCoalesce v JsValue.undefined)

/-- `([data]) => data.id ?? undefined` (guild lifecycle events). -/
def resolverGuildId : Resolver := fun args => do
  let d := argN args 0
  let v ← jsGet d "id"
  pure (jsCoalesce v JsValue.undefined)

/-- `([data]) => data.guild?.id ?? undefined` (guild member / ban / invite
/ role events). -/
def resolverGuildMember : Resolver := fun args => do
  let data := argN args 0
  let g ← jsGet data "guild"
  let v ← if jsNullish g then pure JsValue.undefined else jsGet g "id"
  pure (jsCoalesce v JsValue.undefined)

/-- `([data]) => data.guild?.id ?? data.guildId ?? undefined`
(guildScheduledEvent create/delete/userAdd/userRemove). -/
def resolverScheduledEvent : Resolver := fun args => do
  let data := argN args 0
  let g ← jsGet data "guild"
  let v1 ← if jsNullish g then pure JsValue.undefined else jsGet g "id"
  if !jsNullish v1 then pure v1
  else do
    let v2 ← jsGet data "guildId"
    pure (jsCoalesce v2 JsValue.undefined)

/-- `([data]) => data?.guild?.id ?? data?.guildId ?? undefined`
(guildScheduledEventUpdate). -/
def resolverScheduledEventUpdate : Resolver := fun args => do
  let data := argN args 0
  let v1 ←
    if jsNullish data then pure JsValue.undefined
    else do
      let g ← jsGet data "guild"
      if jsNullish g then pure JsValue.undefined else jsGet g "id"
  if !jsNullish v1 then pure v1
  else do
    let v2 ← if jsNullish data then pure JsValue.undefined else jsGet data "guildId"
    pure (jsCoalesce v2 JsValue.undefined)

/-- `([data, data2]) => data?.guild?.id ?? data2.guild?.id ?? undefined`
(presenceUpdate, roleUpdate, stageInstanceUpdate, stickerUpdate,
threadUpdate, voiceStateUpdate). -/
def resolverPairUpdate : Resolver := fun args => do
  let d1 := argN args 0
  let d2 := argN args 1
  let v1 ←
    if jsNullish d1 then pure JsValue.undefined
    else do
      let g ← jsGet d1 "guild"
      if jsNullish g then pure JsValue.undefined else jsGet g "id"
  if !jsNullish v1 then pure v1
  else do
    let g2 ← jsGet d2 "guild"
    let v2 ← if jsNullish g2 then pure JsValue.undefined else jsGet g2 "id"
    pure (jsCoalesce v2 JsValue.undefined)

/-- `([data]) => data?.guild?.id ?? undefined` (stageInstance / sticker /
thread create and delete events). -/
def resolverStage : Resolver := fun args => do
  let data := argN args 0
  let v ←
    if jsNullish data then pure JsValue.undefined
    else do
      let g ← jsGet data "guild"
      if jsNullish g then pure JsValue.undefined else jsGet g "id"
  pure (jsCoalesce v JsValue.undefined)

/-- `([data, data2]) => data?.guildMember?.guild.id ??
data2?.guildMember?.guild.id ?? undefined` (threadMemberUpdate). -/
def resolverThreadMemberUpdate : Resolver := fun args => do
  let chain := fun (d : JsValue) => do
    if jsNullish d then pure JsValue.undefined
    else do
      let gm ← jsGet d "guildMember"
      if jsNullish gm then pure JsValue.undefined
      else do
        let g ← jsGet gm "guild"
        jsGet g "id"
  let v1 ← chain (argN args 0)
  if !jsNullish v1 then pure v1
  else do
    let v2 ← chain (argN args 1)
    pure (jsCoalesce v2 JsValue.undefined)

/-- `([data]) => data.guild?.id ?? undefined` (typingStart,
webhookUpdate). -/
def resolverTyping : Resolver := fun args => do
  let data := argN args 0
  let g ← jsGet data "guild"
  let v ← if jsNullish g then pure JsValue.undefined else jsGet g "id"
  pure (jsCoalesce v JsValue.undefined)

/-- `([, , , data]) => data.guildId ?? undefined` (command). -/
def resolverCommand : Resolver := fun args => do
  let d := argN args 3
  let v ← jsGet d "guildId"
  pure (jsCoalesce v JsValue.undefined)

/-- `() => null` (client lifecycle events: legitimately unscoped). -/
def resolverNull : Resolver := fun _ => .ok JsValue.nul

/-- One entry of the `guildIdResolvers` array: a set of event kinds and
the resolver they share. -/
structure ResolverEntry where
  events : List String
  resolver : Resolver

/-- The `guildIdResolvers` array of the source, entry by entry. -/
def guildIdResolvers : List ResolverEntry :=
  [ ⟨["applicationCommandPermissionsUpdate"], resolverAppCmdPerms⟩,
    ⟨["autoModerationActionExecution", "autoModerationRuleCreate",
      "autoModerationRuleDelete", "autoModerationRuleUpdate"], resolverAutoMod⟩,
    ⟨["messageCreate", "normalMessageCreate", "normalMessageDelete",
      "normalMessageUpdate", "messageDelete", "messageUpdate",
      "interactionCreate"], resolverMessage⟩,
    ⟨["messageDeleteBulk"], resolverMsgDeleteBulk⟩,
    ⟨["channelCreate", "channelDelete", "channelUpdate",
      "channelPinsUpdate"], resolverChannel⟩,
    ⟨["emojiCreate", "emojiDelete", "emojiUpdate"], resolverEmoji⟩,
    ⟨["messageReactionAdd", "messageReactionRemove",
      "messageReactionRemoveEmoji"], resolverReaction⟩,
    ⟨["messageReactionRemoveAll"], resolverReactionRemoveAll⟩,
    ⟨["guildAuditLogEntryCreate", "guildMembersChunk", "threadListSync"],
      resolverSecondArgId⟩,
    ⟨["guildAvailable", "guildCreate", "guildDelete", "guildUpdate",
      "guildUnavailable", "guildIntegrationsUpdate"], resolverGuildId⟩,
    ⟨["guildBanAdd", "guildBanRemove", "guildMemberAdd", "guildMemberRemove",
      "guildMemberUpdate", "guildMemberAvailable", "inviteCreate",
      "inviteDelete", "roleCreate", "roleDelete"], resolverGuildMember⟩,
    ⟨["guildScheduledEventCreate", "guildScheduledEventDelete",
      "guildScheduledEventUserAdd", "guildScheduledEventUserRemove"],
      resolverScheduledEvent⟩,
    ⟨["guildScheduledEventUpdate"], resolverScheduledEventUpdate⟩,
    ⟨["presenceUpdate", "roleUpdate", "stageInstanceUpdate", "stickerUpdate",
      "threadUpdate", "voiceStateUpdate"], resolverPairUpdate⟩,
    ⟨["stageInstanceDelete", "stageInstanceCreate", "stickerCreate",
      "stickerDelete", "threadCreate", "threadDelete"], resolverStage⟩,
    ⟨["threadMemberUpdate"], resolverThreadMemberUpdate⟩,
    ⟨["typingStart", "webhookUpdate"], resolverTyping⟩,
    ⟨["command"], resolverCommand⟩,
    ⟨["cacheSweep", "debug", "error", "warn", "invalidated", "ready",
      "shardReady", "shardDisconnect", "shardError", "shardReconnecting",
      "shardResume"], resolverNull⟩ ]

/-- Association-list lookup (the `Map.get` of the source). -/
def alistGet {α : Type} : List (String × α) → String → Option α
  | [], _ => none
  | (k, v) :: rest, key => if k = key then some v else alistGet rest key

/-- Association-list insertion with overwrite (the `Map.set` of the
source: a later registration for the same key wins). -/
def alistSet {α : Type} : List (String × α) → String → α → List (String × α)
  | [], key, v => [(key, v)]
  | (k, w) :: rest, key, v =>
      if k = key then (key, v) :: rest else (k, w) :: alistSet rest key v

/-- `getGuildIdResolversMap` of the source: a one-time fold over
`guildIdResolvers` into a map keyed by individual event kind, collecting a
warning for every overlapping claim (last registration wins). -/
def getGuildIdResolversMap : List (String × Resolver) × List String :=
  guildIdResolvers.foldl
    (fun acc entry =>
      entry.events.foldl
        (fun acc ev =>
          let warns :=
            if (alistGet acc.1 ev).isSome then
              acc.2 ++ ["Overlapping Guild ID Resolvers detected: " ++ ev]
            else acc.2
          (alistSet acc.1 ev entry.resolver, warns))
        acc)
    ([], [])

/-- Severity levels of the application logger. -/
inductive LogLevel where
  | debug : LogLevel
  | info : LogLevel
  | warn : LogLevel
  | error : LogLevel
deriving DecidableEq, Repr

/-- One logger call, with its severity and message. -/
structure LogEntry where
  level : LogLevel
  msg : String
deriving DecidableEq, Repr

/-- What the wrapped handler hands back to the host event loop: a normal
return, or an exception escaping the wrapper. -/
inductive Outcome where
  | ok : Outcome
  | thrown (e : String) : Outcome
deriving DecidableEq, Repr

/-- The observable effect of one invocation of a wrapped handler: what it
returns to the host, the log entries it produced, and whether the
underlying extension handler was invoked. -/
structure DispatchResult where
  outcome : Outcome
  logs : List LogEntry
  handlerInvoked : Bool
deriving DecidableEq, Repr

/-- The per-guild `extensions` configuration section:
`{ enabled?: bool, disabled_extensions?: string[] }`. A `none` field is an
absent (undefined) key. -/
structure GuildExtCfg where
  enabled : Option Bool
  disabled_extensions : Option (List String)

/-- The environment the dispatch wrapper reads: the built resolver map,
the per-guild configuration lookup `config[guildId]?.extensions`, and the
system configuration `systemConfig.extensions?.default_mode`. -/
structure Env where
  resolvers : List (String × Resolver)
  extCfg : String → Option GuildExtCfg
  default_mode : Option String

/-- `ExtensionManager.isEnabled`, translated clause by clause:
`(enabled === undefined ? default_mode === "enable_all" : enabled) &&
!disabled_extensions?.includes(extensionId)`. -/
def isEnabled (env : Env) (extensionId guildId : String) : Bool :=
  let enabled : Option Bool := (env.extCfg guildId).bind (·.enabled)
  let disabled : Option (List String) :=
    (env.extCfg guildId).bind (·.disabled_extensions)
  (match enabled with
   | none => env.default_mode == some "enable_all"
   | some b => b) &&
  !(match disabled with
    | none => false
    | some l => l.contains extensionId)

/-- The computation `this.guildIdResolvers.get(eventName)?.(args)`: when
no resolver is registered for the event kind the optional call
short-circuits to `undefined`; otherwise the resolver runs (and may
throw). -/
def resolveGuildId (env : Env) (eventName : String) (args : List JsValue) :
    Except String JsValue :=
  match alistGet env.resolvers eventName with
  | none => .ok JsValue.undefined
  | some r => r args

/-- The type of an extension event handler: it either returns normally or
throws. -/
def Handler : Type := List JsValue → Except String Unit

/-- The `logger.info` entry emitted just before the handler runs. -/
def runningEntry (eventName extensionId : String) : LogEntry :=
  ⟨LogLevel.info, "Running: " ++ eventName ++ " [" ++ extensionId ++ "]"⟩

/-- The `logger.error` entry attributing a caught handler exception to the
offending extension id. -/
def attributionEntry (extensionId : String) : LogEntry :=
  ⟨LogLevel.error,
   "Extension error: the extension " ++ extensionId ++ " seems to cause this exception"⟩

/-- The error entry emitted when an event kind has no registered
resolver (or a resolver produced `undefined`). -/
def invalidEventEntry (eventName : String) : LogEntry :=
  ⟨LogLevel.error, "Invalid event or failed to fetch guild: " ++ eventName⟩

/-- The debug entry emitted when the extension is disabled in the resolved
guild. -/
def disabledEntry (guildId : String) : LogEntry :=
  ⟨LogLevel.debug, "Extension is not enabled in this guild: " ++ guildId⟩

/-- The closure returned by `ExtensionManager.wrapHandler`, translated
branch by branch. The guild-id resolution and the enablement check run
before the `try` block; only the invocation of `handler` is inside it.
`bail` only controls an explicit `return` inside the `catch` block and
does not change the returned value. -/
def wrappedHandler (env : Env) (extensionId : String) (eventName : String)
    (handler : Handler) (bail : Bool) (args : List JsValue) : DispatchResult :=
  match resolveGuildId env eventName args with
  | .error e => { outcome := Outcome.thrown e, logs := [], handlerInvoked := false }
  | .ok guildId =>
    if guildId.isUndefined then
      { outcome := Outcome.ok, logs := [invalidEventEntry eventName],
        handlerInvoked := false }
    else if !guildId.isNull && !isEnabled env extensionId (jsKey guildId) then
      { outcome := Outcome.ok, logs := [disabledEntry (jsKey guildId)],
        handlerInvoked := false }
    else
      match handler args with
      | .ok _ =>
          { outcome := Outcome.ok, logs := [runningEntry eventName extensionId],
            handlerInvoked := true }
      | .error e =>
          { outcome := Outcome.ok,
            logs := [runningEntry eventName extensionId,
                     attributionEntry extensionId,
                     ⟨LogLevel.error, e⟩],
            handlerInvoked := true }

/-- One occurrence of an event delivered by the host: every subscribed
(extension id, handler) pair gets its wrapped handler called with the same
arguments, in subscription order. -/
def runOccurrence (env : Env) (eventName : String)
    (subs : List (String × Handler)) (args : List JsValue) : List DispatchResult :=
  subs.map (fun s => wrappedHandler env s.1 eventName s.2 false args)

/-- The host loop over a sequence of occurrences of the same event kind. -/
def hostLoop (env : Env) (eventName : String) (subs : List (String × Handler))
    (occs : List (List JsValue)) : List (List DispatchResult) :=
  occs.map (runOccurrence env eventName subs)

/-- A hook invocation recorded during activation: an extension's
post-construction hook or its registration hook. -/
inductive Hook where
  | post (id : String) : Hook
  | reg (id : String) : Hook
deriving DecidableEq, Repr

/-- `ExtensionManager.postConstruct`: a single loop over the loaded
extensions that calls `extension.postConstruct()` and then awaits
`extension.register()` before moving to the next extension. The trace
records the hook invocations in execution order. -/
def postConstructTrace : List String → List Hook
  | [] => []
  | e :: rest => Hook.post e :: Hook.reg e :: postConstructTrace rest

/-- Whether a recorded hook is a post-construction hook. -/
def Hook.isPost : Hook → Bool
  | .post _ => true
  | .reg _ => false

/-- Whether a recorded hook is a registration hook. -/
def Hook.isReg : Hook → Bool
  | .post _ => false
  | .reg _ => true

/-- The two-phase property the spec asserts of the activation trace: every
post-construction hook precedes every registration hook, i.e. the trace is
its post-hooks followed by its registration hooks. -/
def phaseSeparated (tr : List Hook) : Bool :=
  tr = tr.filter Hook.isPost ++ tr.filter Hook.isReg

/-- One candidate entry of the extensions directory, as the loader
observes it: its name, whether it is a directory, whether an
`extension.json` manifest file exists, whether that manifest passes schema
validation, and the extension id the manifest declares. -/
structure DirEntry where
  name : String
  isDir : Bool
  hasManifest : Bool
  manifestValid : Bool
  manifestId : String
deriving DecidableEq, Repr

/-- The outcome of `ExtensionManager.loadExtensions`: either the process
terminated via `process.exit(code)`, or loading completed with the ids of
the extensions that were loaded, in order. -/
inductive LoadOutcome where
  | exited (code : Int) : LoadOutcome
  | ok (loadedIds : List String) : LoadOutcome
deriving DecidableEq, Repr

/-- The loop body of `loadExtensions`: skip non-directories and the
reserved `.extbuilds` build-cache directory; a missing `extension.json`
calls `process.exit(-1)`; a manifest failing schema validation logs an
error and continues; otherwise the extension is loaded and appended. -/
def loadExtensionsGo : List DirEntry → List String → LoadOutcome
  | [], acc => .ok acc.reverse
  | e :: rest, acc =>
    if !e.isDir || e.name = ".extbuilds" then loadExtensionsGo rest acc
    else if !e.hasManifest then .exited (-1)
    else if !e.manifestValid then loadExtensionsGo rest acc
    else loadExtensionsGo rest (e.manifestId :: acc)

/-- `ExtensionManager.loadExtensions` over the listed directory entries. -/
def loadExtensions (entries : List DirEntry) : LoadOutcome :=
  loadExtensionsGo entries []

/-- A remote catalog entry (`ExtensionInfo`): id, display name, version,
short name and tarball URLs. -/
structure ExtensionInfo where
  id : String
  name : String
  shortName : String
  version : String
  tarballs : List String
deriving DecidableEq, Repr

/-- The whole remote catalog: a JSON body keyed by extension id. -/
def Catalog : Type := List (String × ExtensionInfo)

/-- An HTTP response as the metadata client consumes it. -/
structure HttpResponse where
  status : Nat
  data : Catalog

/-- The `[data, error]` pair cached for the whole catalog. -/
def CatalogFetch : Type := Option Catalog × Option String

/-- `ExtensionManager.fetchExtensionMetadata`: one outbound request to the
fixed catalog URL; any transport error, missing response or non-200
status yields `[null, error]`, a 200 response yields `[body, null]`. The
`response`/`error` parameters stand for what the `request` helper
delivered. -/
def fetchExtensionMetadata (response : Option HttpResponse)
    (error : Option String) : CatalogFetch :=
  match error, response with
  | some e, _ => (none, some e)
  | none, none => (none, none)
  | none, some r => if r.status ≠ 200 then (none, none) else (some r.data, none)

/-- Modelled from the spec: the `cache` helper (`../utils/cache`) is not
among the provided sources. Per the spec, results are cached under a
single cache key with a time-to-live, a hit within the TTL window returns
the stored value without invoking the fetch, and a miss invokes the
underlying fetch exactly once and stores its result. The state holds the
single entry for the key (store time and value); the third component of
the result counts how many times the underlying fetch was invoked by this
call. -/
structure CacheState (α : Type) where
  entry : Option (Nat × α)

/-- Modelled from the spec: one call through the cache at time `now` with
time-to-live `ttl`. -/
def cacheCall {α : Type} (now ttl : Nat) (fetch : Unit → α)
    (st : CacheState α) : α × CacheState α × Nat :=
  match st.entry with
  | some (t, v) =>
      if now - t < ttl then (v, st, 0)
      else
        let v' := fetch ()
        (v', ⟨some (now, v')⟩, 1)
  | none =>
      let v' := fetch ()
      (v', ⟨some (now, v')⟩, 1)

/-- `ExtensionManager.getExtensionMetadata`: resolve the whole catalog
through the cache (key `"extension-index"`, TTL 120000 ms), then answer
`[null, error]` on a fetch error and `[data?.[id], null]` otherwise. -/
def getExtensionMetadata (id : String) (now : Nat)
    (response : Option HttpResponse) (error : Option String)
    (st : CacheState CatalogFetch) :
    (Option ExtensionInfo × Option String) × CacheState CatalogFetch × Nat :=
  let r := cacheCall now 120000 (fun _ => fetchExtensionMetadata response error) st
  match r.1 with
  | (_, some e) => ((none, some e), r.2.1, r.2.2)
  | (dat, none) => ((dat.bind (fun c => alistGet c id), none), r.2.1, r.2.2)

/-- The filesystem as the install pipeline touches it: the set of existing
directories and the set of existing files, as absolute-ish path strings. -/
structure FS where
  dirs : List String
  files : List String
deriving DecidableEq, Repr

/-- `path.join` of the two-segment uses in the source. -/
def joinPath (a b : String) : String := a ++ "/" ++ b

/-- Whether one character list is an initial segment of another. -/
def listPref : List Char → List Char → Bool
  | [], _ => true
  | _ :: _, [] => false
  | a :: as, b :: bs => a = b && listPref as bs

/-- Whether `p` is a prefix of the string `s` (so `strPref "E:" l` says
that the output line `l` is a fatal line). -/
def strPref (p s : String) : Bool := listPref p.data s.data

/-- Directory creation (`mkdir` if absent), used by `systemPrefix(p, true)`
for the scoped temp-file area. -/
def addDir (fs : FS) (p : String) : FS :=
  if p ∈ fs.dirs then fs else { fs with dirs := fs.dirs ++ [p] }

/-- The environment of one install invocation: the configured extensions
directory (if any), and oracles for the outcomes of the fallible external
steps (tarball download, tar extraction, rename, the two best-effort
deletions), the progress percentages the download reports, and what the
catalog request delivered. -/
structure InstallEnv where
  extensionsPath : Option String
  downloadOk : Bool
  tarOk : Bool
  renameOk : Bool
  rmTmpOk : Bool
  rmTarOk : Bool
  progress : List Nat
  response : Option HttpResponse
  httpError : Option String

/-- The temp directory `ExtensionManager.installExtension` unpacks into:
`systemPrefix("tmp/{id}-{version}", true)`. -/
def extensionTmpDir (ext : ExtensionInfo) : String :=
  "tmp/" ++ ext.id ++ "-" ++ ext.version

/-- The subdirectory of the temp directory that the tarball yields and the
rename relocates: `{tmpdir}/{shortName}-{version}`. -/
def extractedDir (ext : ExtensionInfo) : String :=
  joinPath (extensionTmpDir ext) (ext.shortName ++ "-" ++ ext.version)

/-- `ExtensionManager.installExtension`, translated step by step. The
returned list is the sequence of lines written to the caller-supplied
output sink. A rename fails when the destination already exists (an
installed extension directory is non-empty, so the underlying `rename`
reports `ENOTEMPTY`), when the source is missing, or when the oracle says
the filesystem failed. -/
def installExtension (env : InstallEnv) (fs : FS) (ext : ExtensionInfo) :
    FS × List String :=
  match env.extensionsPath with
  | none => (fs, [])
  | some root =>
    let out1 := ["Preparing to unpack " ++ ext.name ++ " (" ++ ext.version ++ ")...\n"]
    let tmpDir := extensionTmpDir ext
    let fs1 := addDir fs tmpDir
    let out2 := out1 ++ ["Unpacking " ++ ext.name ++ " (" ++ ext.version ++ ")...\n"]
    if !env.tarOk then
      (fs1, out2 ++ ["E: Unable to unpack extension: " ++ ext.id ++ "\n"])
    else
      let src := extractedDir ext
      let fs2 := addDir fs1 src
      let out3 := out2 ++ ["Setting up " ++ ext.name ++ " (" ++ ext.version ++ ")...\n"]
      let dest := joinPath root ext.shortName
      if dest ∈ fs2.dirs ∨ src ∉ fs2.dirs ∨ env.renameOk = false then
        (fs2, out3 ++ ["E: Failed to set up extension: " ++ ext.id ++ "\n"])
      else
        let fs3 : FS := { fs2 with dirs := fs2.dirs.filter (· ≠ src) ++ [dest] }
        let out4 := out3 ++ ["Cleaning up caches and temporary files...\n"]
        if !env.rmTmpOk then
          (fs3, out4 ++ ["W: Failed to clean up temporary files for extension: "
                          ++ ext.id ++ "\n"])
        else
          ({ fs3 with
             dirs := fs3.dirs.filter
               (fun d => d ≠ tmpDir && !strPref (tmpDir ++ "/") d) }, out4)

/-- The fatal line reported when no extensions directory is configured. -/
def noExtensionsDirMsg : String :=
  "E: Extensions directory is not set. Please set the EXTENSIONS_DIRECTORY environment variable.\n"

/-- `ExtensionManager.fetchAndInstallExtension`, translated step by step:
verify the extensions directory, resolve catalog metadata through the
cache, stream-download the first tarball (bracketing the numeric progress
lines with the `%` sentinel), install, then clean up the downloaded
tarball. -/
def fetchAndInstallExtension (env : InstallEnv) (fs : FS)
    (st : CacheState CatalogFetch) (id : String) (now : Nat) :
    FS × List String × CacheState CatalogFetch :=
  match env.extensionsPath with
  | none => (fs, [noExtensionsDirMsg], st)
  | some _ =>
    let out1 := ["Fetching metadata for extension " ++ id ++ "...\n"]
    let m := getExtensionMetadata id now env.response env.httpError st
    let st' := m.2.1
    match m.1 with
    | (none, _) =>
        (fs, out1 ++ ["E: Failed to fetch metadata of extension: " ++ id ++ "\n"], st')
    | (some _, some _) =>
        (fs, out1 ++ ["E: Failed to fetch metadata of extension: " ++ id ++ "\n"], st')
    | (some ext, none) =>
      let out2 := out1 ++
        ["Retrieving " ++ ext.name ++ " (" ++ ext.version ++
           ") from the SudoBot Extension Repository (SER)...\n", "%", "\n"]
      if !env.downloadOk then
        (fs, out2 ++ ["%", "\n", "E: Failed to retrieve extension: " ++ id ++ "\n"], st')
      else
        let fs1 := addDir fs "tmp"
        let tarPath := "tmp/" ++ ext.id ++ "-" ++ ext.version ++ ".tar.gz"
        let fs2 : FS := { fs1 with files := fs1.files ++ [tarPath] }
        let out3 := out2 ++ env.progress.map (fun p => toString p ++ "\n") ++ ["%", "\n"]
        let inst := installExtension env fs2 ext
        let out4 := out3 ++ inst.2
        if !env.rmTarOk then
          (inst.1, out4 ++ ["W: Failed to clean download caches for extension: "
                             ++ id ++ "\n"], st')
        else
          ({ inst.1 with files := inst.1.files.filter (· ≠ tarPath) }, out4, st')

/-- The directories currently inside the live extensions directory. -/
def underRoot (root : String) (fs : FS) : List String :=
  fs.dirs.filter (fun d => strPref (root ++ "/") d)

/-- The fatal lines of an output stream: those prefixed `E:`. -/
def fatalLines (out : List String) : List String :=
  out.filter (fun l => strPref "E:" l)

/-- An environment with the real resolver table in which every extension
is explicitly enabled for every guild. -/
def envEnabled : Env :=
  { resolvers := getGuildIdResolversMap.1,
    extCfg := fun _ => some ⟨some true, none⟩,
    default_mode := some "enable_all" }

/-- An environment with the real resolver table in which every extension
is explicitly disabled (`enabled: false`) for every guild. -/
def envDisabled : Env :=
  { resolvers := getGuildIdResolversMap.1,
    extCfg := fun _ => some ⟨some false, none⟩,
    default_mode := some "enable_all" }

/-- Event arguments for a `messageCreate` occurrence in guild `g1`: a
message object whose `guild.id` is `g1`. -/
def msgArgs : List JsValue :=
  [JsValue.obj [("guild", JsValue.obj [("id", JsValue.str "g1")])]]

/-- A handler that always throws. -/
def throwingHandler : Handler := fun _ => .error "boom"

/-- A handler that always returns normally. -/
def okHandler : Handler := fun _ => .ok ()

example : resolveGuildId envEnabled "messageCreate" msgArgs =
    .ok (JsValue.str "g1") := by rfl

example : alistGet envEnabled.resolvers "notARealEvent" = none := by rfl

example : resolveGuildId envEnabled "applicationCommandPermissionsUpdate" [] =
    .error "TypeError: Cannot read properties of undefined (reading guildId)" := by rfl

example : resolveGuildId envEnabled "guildAuditLogEntryCreate" [JsValue.obj []] =
    .error "TypeError: Cannot read properties of undefined (reading id)" := by rfl

example : resolveGuildId envEnabled "ready" [] = .ok JsValue.nul := by rfl

example : isEnabled envDisabled "ext1" "g1" = false := by rfl

example : isEnabled envEnabled "ext1" "g1" = true := by rfl

example : (wrappedHandler envEnabled "ext1" "messageCreate" throwingHandler false msgArgs) =
    { outcome := Outcome.ok,
      logs := [runningEntry "messageCreate" "ext1", attributionEntry "ext1",
               ⟨LogLevel.error, "boom"⟩],
      handlerInvoked := true } := by rfl

example : (wrappedHandler envDisabled "ext1" "messageCreate" okHandler false msgArgs) =
    { outcome := Outcome.ok, logs := [disabledEntry "g1"],
      handlerInvoked := false } := by rfl

example : getGuildIdResolversMap.2 = [] := by rfl

/-! ## Theorems -/

/-- Helper: when the resolver yields a concrete guild id `g` for which the
extension is disabled, the wrapped handler logs at debug level and returns
without invoking the handler. -/
theorem wrappedHandler_disabled_eq (env : Env) (extensionId eventName : String)
    (handler : Handler) (bail : Bool) (g : String) (args : List JsValue)
    (hres : resolveGuildId env eventName args = .ok (JsValue.str g))
    (hdis : isEnabled env extensionId g = false) :
    wrappedHandler env extensionId eventName handler bail args =
      { outcome := Outcome.ok, logs := [disabledEntry g], handlerInvoked := false } := by
  unfold wrappedHandler
  rw [hres]
  simp [JsValue.isUndefined, JsValue.isNull, jsKey, hdis]

/-- C3: `isEnabled(extensionId, guildId)` returns true if and only if the
per-guild `enabled` flag — when explicitly set — holds (otherwise the
system default mode is `enable_all`) and `disabled_extensions` does not
contain the extension id; an explicitly set per-guild `enabled` value
always takes precedence over the system default mode. -/
theorem isEnabled_iff (env : Env) (extensionId guildId : String) :
    isEnabled env extensionId guildId = true ↔
      ((match (env.extCfg guildId).bind (·.enabled) with
        | some b => b = true
        | none => env.default_mode = some "enable_all") ∧
       ∀ l, (env.extCfg guildId).bind (·.disabled_extensions) = some l →
         extensionId ∉ l) := by
  unfold isEnabled
  rcases h1 : (env.extCfg guildId).bind (·.enabled) with _ | b <;>
  rcases h2 : (env.extCfg guildId).bind (·.disabled_extensions) with _ | l <;>
    simp [h1, h2, List.contains_iff_exists_mem_beq, beq_iff_eq]

/-- C5: for an event kind with no registered entry in the guild-resolver
table, each occurrence delivered to the wrapped handler produces exactly
one error log, the event is dropped, and the extension handler is not
invoked; the wrapper still returns normally. -/
theorem wrappedHandler_unregistered (env : Env) (extensionId eventName : String)
    (handler : Handler) (bail : Bool) (args : List JsValue)
    (hnone : alistGet env.resolvers eventName = none) :
    wrappedHandler env extensionId eventName handler bail args =
      { outcome := Outcome.ok, logs := [invalidEventEntry eventName],
        handlerInvoked := false } ∧
    ((wrappedHandler env extensionId eventName handler bail args).logs.filter
        (fun l => l.level == LogLevel.error)).length = 1 ∧
    (wrappedHandler env extensionId eventName handler bail args).handlerInvoked
      = false := by
  have h : wrappedHandler env extensionId eventName handler bail args =
      { outcome := Outcome.ok, logs := [invalidEventEntry eventName],
        handlerInvoked := false } := by
    unfold wrappedHandler resolveGuildId
    rw [hnone]
    simp [JsValue.isUndefined]
  refine ⟨h, ?_, ?_⟩ <;> simp [h, invalidEventEntry]

/-- Witness for C5: the real resolver table has no entry for the event
kind `notARealEvent`, and dispatching it drops the event with a single
error log. -/
theorem wrappedHandler_unregistered_witness :
    wrappedHandler envEnabled "ext1" "notARealEvent" okHandler false [] =
      { outcome := Outcome.ok, logs := [invalidEventEntry "notARealEvent"],
        handlerInvoked := false } ∧
    ((wrappedHandler envEnabled "ext1" "notARealEvent" okHandler false []).logs.filter
        (fun l => l.level == LogLevel.error)).length = 1 ∧
    (wrappedHandler envEnabled "ext1" "notARealEvent" okHandler false []).handlerInvoked
      = false :=
  wrappedHandler_unregistered envEnabled "ext1" "notARealEvent" okHandler false [] rfl

/-- C10: the failure boundary covers only the handler invocation — the
guild-id resolution runs before the try/catch, so when a registered
resolver throws, the wrapped handler itself throws and the exception
propagates to the host, with no log produced and the handler never
invoked. -/
theorem wrappedHandler_resolver_throw (env : Env) (extensionId eventName : String)
    (handler : Handler) (bail : Bool) (args : List JsValue) (e : String)
    (hthrow : resolveGuildId env eventName args = .error e) :
    wrappedHandler env extensionId eventName handler bail args =
      { outcome := Outcome.thrown e, logs := [], handlerInvoked := false } := by
  unfold wrappedHandler
  rw [hthrow]

/-- Witness for C10: with the real resolver table, an
`applicationCommandPermissionsUpdate` occurrence whose data argument is
`undefined` makes the registered resolver perform an unguarded field
access that throws, and the wrapper propagates that exception even though
the handler itself is total. -/
theorem wrappedHandler_resolver_throw_witness :
    wrappedHandler envEnabled "ext1" "applicationCommandPermissionsUpdate"
        okHandler false [JsValue.undefined] =
      { outcome := Outcome.thrown
          "TypeError: Cannot read properties of undefined (reading guildId)",
        logs := [], handlerInvoked := false } ∧
    okHandler [JsValue.undefined] = .ok () :=
  ⟨wrappedHandler_resolver_throw envEnabled "ext1"
      "applicationCommandPermissionsUpdate" okHandler false [JsValue.undefined] _ rfl,
   rfl⟩

/-- C4: for every extension disabled in a community `g` under the
enablement rule, the wrapped handler never invokes the underlying handler
for any occurrence resolving to `g` — it returns normally after one
debug-level log — no matter how many times such occurrences recur. -/
theorem disabled_extension_never_invoked (env : Env)
    (extensionId eventName : String) (handler : Handler) (bail : Bool)
    (g : String) (args : List JsValue)
    (hres : resolveGuildId env eventName args = .ok (JsValue.str g))
    (hdis : isEnabled env extensionId g = false) :
    wrappedHandler env extensionId eventName handler bail args =
      { outcome := Outcome.ok, logs := [disabledEntry g],
        handlerInvoked := false } ∧
    ∀ occs : List (List JsValue),
      (∀ a ∈ occs, resolveGuildId env eventName a = .ok (JsValue.str g)) →
      ∀ row ∈ hostLoop env eventName [(extensionId, handler)] occs,
        ∀ d ∈ row, d.handlerInvoked = false := by
  refine ⟨wrappedHandler_disabled_eq env extensionId eventName handler bail g
      args hres hdis, ?_⟩
  intro occs hoccs row hrow d hd
  unfold hostLoop at hrow
  rcases List.mem_map.mp hrow with ⟨a, ha, rfl⟩
  unfold runOccurrence at hd
  rcases List.mem_map.mp hd with ⟨s, hs, rfl⟩
  rcases List.mem_singleton.mp hs with rfl
  rw [wrappedHandler_disabled_eq env extensionId eventName handler false g a
      (hoccs a ha) hdis]

/-- Witness for C4: with the real resolver table and a configuration that
explicitly disables extensions in guild `g1`, a `messageCreate` occurrence
in `g1` is never delivered to the extension handler, across repeated
occurrences. -/
theorem disabled_extension_never_invoked_witness :
    (wrappedHandler envDisabled "ext1" "messageCreate" okHandler false msgArgs =
      { outcome := Outcome.ok, logs := [disabledEntry "g1"],
        handlerInvoked := false }) ∧
    ∀ row ∈ hostLoop envDisabled "messageCreate" [("ext1", okHandler)]
        [msgArgs, msgArgs, msgArgs],
      ∀ d ∈ row, d.handlerInvoked = false := by
  have h := disabled_extension_never_invoked envDisabled "ext1" "messageCreate"
    okHandler false "g1" msgArgs rfl rfl
  refine ⟨h.1, h.2 [msgArgs, msgArgs, msgArgs] ?_⟩
  intro a ha
  have ha' : a = msgArgs ∨ a = msgArgs ∨ a = msgArgs := by simpa using ha
  rcases ha' with rfl | rfl | rfl <;> rfl

/-- C1: a handler exception is contained by the failure boundary.
(1) Whenever the guild-id resolution itself does not throw, the wrapped
handler returns normally — for every handler, including throwing ones, and
regardless of `bail`. (2) When the handler was invoked and threw, the
wrapper logged the exception with the offending extension id attributed.
(3) Whether the handler is invoked does not depend on the handler (so a
throw on occurrence N cannot prevent the same handler from being invoked
on occurrence N+1). (4) In the host loop, the result for extension `i` on
occurrence `n` is exactly the wrapped-handler result computed from that
extension and that occurrence alone, so no other extension's throw can
affect it. -/
theorem handler_exception_isolated :
    (∀ (env : Env) (extensionId eventName : String) (handler : Handler)
        (bail : Bool) (args : List JsValue) (gid : JsValue),
      resolveGuildId env eventName args = .ok gid →
      (wrappedHandler env extensionId eventName handler bail args).outcome
        = Outcome.ok) ∧
    (∀ (env : Env) (extensionId eventName : String) (handler : Handler)
        (bail : Bool) (args : List JsValue) (e : String),
      handler args = .error e →
      (wrappedHandler env extensionId eventName handler bail args).handlerInvoked
        = true →
      (wrappedHandler env extensionId eventName handler bail args).logs =
        [runningEntry eventName extensionId, attributionEntry extensionId,
         ⟨LogLevel.error, e⟩]) ∧
    (∀ (env : Env) (extensionId eventName : String) (h1 h2 : Handler)
        (b1 b2 : Bool) (args : List JsValue),
      (wrappedHandler env extensionId eventName h1 b1 args).handlerInvoked =
      (wrappedHandler env extensionId eventName h2 b2 args).handlerInvoked) ∧
    (∀ (env : Env) (eventName : String) (subs : List (String × Handler))
        (occs : List (List JsValue)) (n i : Nat) (sub : String × Handler)
        (args : List JsValue),
      subs.get? i = some sub → occs.get? n = some args →
      ∃ row, (hostLoop env eventName subs occs).get? n = some row ∧
        row.get? i = some (wrappedHandler env sub.1 eventName sub.2 false args)) := by
  refine ⟨?_, ?_, ?_, ?_⟩
  · intro env extensionId eventName handler bail args gid hres
    unfold wrappedHandler
    split
    · simp_all
    · split
      · rfl
      · split
        · rfl
        · rcases hh : handler args with _ | e <;> rfl
  · intro env extensionId eventName handler bail args e hthrow
    unfold wrappedHandler
    rw [hthrow]
    split
    · intro hinv; simp at hinv
    · split
      · intro hinv; simp at hinv
      · split
        · intro hinv; simp at hinv
        · intro _; rfl
  · intro env extensionId eventName h1 h2 b1 b2 args
    unfold wrappedHandler
    rcases hh1 : h1 args with _ | e1 <;> rcases hh2 : h2 args with _ | e2 <;>
      split <;> try rfl
    all_goals split <;> try rfl
    all_goals split <;> rfl
  · intro env eventName subs occs n i sub args hsub hocc
    refine ⟨runOccurrence env eventName subs args, ?_, ?_⟩
    · unfold hostLoop
      rw [List.get?_map, hocc]
      rfl
    · unfold runOccurrence
      rw [List.get?_map, hsub]
      rfl

/-- Witness for C1, with the real resolver table and a `messageCreate`
occurrence in an enabled guild: a throwing handler is invoked, its
exception is swallowed and logged with attribution, its invocation
decision agrees with that of a well-behaved handler, and in a host loop
with two subscribed extensions the second extension's result on the same
occurrence is its own wrapped-handler result. -/
theorem handler_exception_isolated_witness :
    (wrappedHandler envEnabled "ext1" "messageCreate" throwingHandler false
        msgArgs).outcome = Outcome.ok ∧
    (wrappedHandler envEnabled "ext1" "messageCreate" throwingHandler false
        msgArgs).logs =
      [runningEntry "messageCreate" "ext1", attributionEntry "ext1",
       ⟨LogLevel.error, "boom"⟩] ∧
    ((wrappedHandler envEnabled "ext1" "messageCreate" throwingHandler false
        msgArgs).handlerInvoked =
      (wrappedHandler envEnabled "ext1" "messageCreate" okHandler true
        msgArgs).handlerInvoked) ∧
    ∃ row, (hostLoop envEnabled "messageCreate"
        [("ext1", throwingHandler), ("ext2", okHandler)] [msgArgs]).get? 0
        = some row ∧
      row.get? 1 = some (wrappedHandler envEnabled "ext2" "messageCreate"
        okHandler false msgArgs) :=
  ⟨handler_exception_isolated.1 envEnabled "ext1" "messageCreate"
      throwingHandler false msgArgs (JsValue.str "g1") rfl,
   handler_exception_isolated.2.1 envEnabled "ext1" "messageCreate"
      throwingHandler false msgArgs "boom" rfl rfl,
   handler_exception_isolated.2.2.1 envEnabled "ext1" "messageCreate"
      throwingHandler okHandler false true msgArgs,
   handler_exception_isolated.2.2.2 envEnabled "messageCreate"
      [("ext1", throwingHandler), ("ext2", okHandler)] [msgArgs] 0 1
      ("ext2", okHandler) msgArgs rfl rfl⟩

/-- C2 counterexample: for extensions loaded in order `[A, B]`, the
activation trace produced by `postConstruct` is
`[post A, reg A, post B, reg B]` — A's registration hook runs before B's
post-construction hook, so the trace is not phase-separated as the claim
states. -/
theorem postConstruct_not_two_phase :
    postConstructTrace ["A", "B"] =
      [Hook.post "A", Hook.reg "A", Hook.post "B", Hook.reg "B"] ∧
    phaseSeparated (postConstructTrace ["A", "B"]) = false := by
  exact ⟨rfl, by decide⟩

/-- C2 (amended): activation is per-extension in load order — the trace
has exactly the hooks of the loaded extensions, each extension's
post-construction hook at position `2n` immediately followed by its
registration hook at position `2n + 1`, so registration hooks run strictly
in load order, sequentially, each completed before the next extension's
hooks begin. -/
theorem postConstruct_per_extension_order (exts : List String) :
    (postConstructTrace exts).filter Hook.isReg = exts.map Hook.reg ∧
    (postConstructTrace exts).filter Hook.isPost = exts.map Hook.post ∧
    (postConstructTrace exts).length = 2 * exts.length ∧
    ∀ n e, exts.get? n = some e →
      (postConstructTrace exts).get? (2 * n) = some (Hook.post e) ∧
      (postConstructTrace exts).get? (2 * n + 1) = some (Hook.reg e) := by
  induction exts with
  | nil =>
    refine ⟨rfl, rfl, rfl, ?_⟩
    intro n e h
    simp [List.get?] at h
  | cons x xs ih =>
    refine ⟨?_, ?_, ?_, ?_⟩
    · simp [postConstructTrace, List.filter, Hook.isReg, Hook.isPost, ih.1]
    · simp [postConstructTrace, List.filter, Hook.isReg, Hook.isPost, ih.2.1]
    · simp only [postConstructTrace, List.length_cons, List.length_map,
        List.length, ih.2.2.1]
      ring
    · intro n e h
      match n with
      | 0 =>
        simp only [List.get?] at h
        cases h
        exact ⟨rfl, rfl⟩
      | Nat.succ m =>
        have h' : xs.get? m = some e := h
        have harith : 2 * (m + 1) = 2 * m + 1 + 1 := by ring
        rw [harith]
        exact (ih.2.2.2 m e h')

/-- Witness for the amended C2: for `["A", "B"]`, B's hooks sit at
positions 2 and 3 of the trace — after A's registration hook. -/
theorem postConstruct_per_extension_order_witness :
    (postConstructTrace ["A", "B"]).get? 2 = some (Hook.post "B") ∧
    (postConstructTrace ["A", "B"]).get? 3 = some (Hook.reg "B") :=
  (postConstruct_per_extension_order ["A", "B"]).2.2.2 1 "B" rfl

/-- A listed entry is a candidate when it is a directory other than the
reserved `.extbuilds` build cache. -/
def isCandidate (e : DirEntry) : Prop :=
  e.isDir = true ∧ e.name ≠ ".extbuilds"

instance (e : DirEntry) : Decidable (isCandidate e) := by
  unfold isCandidate; infer_instance

/-- Helper: if some candidate lacks a manifest, the loader loop exits the
process with code `-1`. -/
theorem loadExtensionsGo_missing (entries : List DirEntry) (acc : List String)
    (h : ∃ e ∈ entries, isCandidate e ∧ e.hasManifest = false) :
    loadExtensionsGo entries acc = LoadOutcome.exited (-1) := by
  induction entries generalizing acc with
  | nil => simp at h
  | cons x xs ih =>
    rcases h with ⟨e, he, hc, hm⟩
    rcases List.mem_cons.mp he with rfl | he'
    · unfold loadExtensionsGo
      rcases hc with ⟨hd, hn⟩
      rw [if_neg (by simp [hd, hn]), if_pos (by simp [hm])]
    · unfold loadExtensionsGo
      split
      · exact ih acc ⟨e, he', hc, hm⟩
      · split
        · rfl
        · split
          · exact ih acc ⟨e, he', hc, hm⟩
          · exact ih _ ⟨e, he', hc, hm⟩

/-- Helper: when every candidate has a manifest, the loader loop finishes,
skipping schema-invalid candidates and loading the rest in order. -/
theorem loadExtensionsGo_total (entries : List DirEntry) (acc : List String)
    (h : ∀ e ∈ entries, isCandidate e → e.hasManifest = true) :
    loadExtensionsGo entries acc =
      LoadOutcome.ok (acc.reverse ++
        (entries.filter (fun e => decide (isCandidate e) && e.manifestValid)).map
          (·.manifestId)) := by
  induction entries generalizing acc with
  | nil => simp [loadExtensionsGo]
  | cons x xs ih =>
    unfold loadExtensionsGo
    have hxs : ∀ e ∈ xs, isCandidate e → e.hasManifest = true := by
      intro e he hc; exact h e (List.mem_cons_of_mem x he) hc
    by_cases hcand : isCandidate x
    · have hman : x.hasManifest = true := h x (List.mem_cons_self x xs) hcand
      have hdec : decide (isCandidate x) = true := by simp [hcand]
      obtain ⟨hd, hn⟩ := hcand
      rw [if_neg (by simp [hd, hn]), if_neg (by simp [hman])]
      by_cases hval : x.manifestValid = true
      · rw [if_neg (by simp [hval]), ih (x.manifestId :: acc) hxs]
        simp [List.filter_cons, hdec, hval]
      · have hval' : x.manifestValid = false := by
          revert hval; cases x.manifestValid <;> simp
        rw [if_pos (by simp [hval']), ih acc hxs]
        simp [List.filter_cons, hdec, hval']
    · have hskip : (!x.isDir || decide (x.name = ".extbuilds")) = true := by
        unfold isCandidate at hcand
        push_neg at hcand
        cases hd : x.isDir with
        | false => simp
        | true => simp [hcand hd]
      rw [if_pos hskip, ih acc hxs]
      have hdec : decide (isCandidate x) = false := decide_eq_false hcand
      simp [List.filter_cons, hdec]

/-- C9: if any candidate subdirectory of the extensions directory lacks an
`extension.json` manifest, `loadExtensions` terminates the process with a
non-zero exit code rather than skipping it; by contrast, when every
candidate has a manifest, any manifest failing schema validation is merely
skipped and loading continues with the remaining directories. -/
theorem loader_missing_manifest_fatal (entries : List DirEntry) :
    ((∃ e ∈ entries, isCandidate e ∧ e.hasManifest = false) →
      loadExtensions entries = LoadOutcome.exited (-1) ∧ (-1 : Int) ≠ 0) ∧
    ((∀ e ∈ entries, isCandidate e → e.hasManifest = true) →
      loadExtensions entries =
        LoadOutcome.ok
          ((entries.filter (fun e => decide (isCandidate e) && e.manifestValid)).map
            (·.manifestId))) := by
  constructor
  · intro h
    exact ⟨loadExtensionsGo_missing entries [] h, by decide⟩
  · intro h
    have := loadExtensionsGo_total entries [] h
    simpa using this

/-- Witness for C9: a directory with a manifest-less candidate `b` makes
the loader exit with `-1`; a directory whose candidates all have manifests
— one schema-invalid (`a`), the reserved `.extbuilds` directory, a plain
file, and one valid extension (`c`) — loads exactly `c`. -/
theorem loader_missing_manifest_fatal_witness :
    (loadExtensions
        [⟨"a", true, true, true, "ida"⟩, ⟨"b", true, false, true, "idb"⟩] =
      LoadOutcome.exited (-1) ∧ (-1 : Int) ≠ 0) ∧
    loadExtensions
        [⟨"a", true, true, false, "ida"⟩, ⟨".extbuilds", true, false, false, ""⟩,
         ⟨"f", false, false, false, ""⟩, ⟨"c", true, true, true, "idc"⟩] =
      LoadOutcome.ok ["idc"] :=
  ⟨(loader_missing_manifest_fatal
      [⟨"a", true, true, true, "ida"⟩, ⟨"b", true, false, true, "idb"⟩]).1
      (by decide),
   (loader_missing_manifest_fatal
      [⟨"a", true, true, false, "ida"⟩, ⟨".extbuilds", true, false, false, ""⟩,
       ⟨"f", false, false, false, ""⟩, ⟨"c", true, true, true, "idc"⟩]).2
      (by decide)⟩

/-- C6: two `getExtensionMetadata` calls for the same extension id within
120 seconds of each other perform exactly one underlying outbound request:
the first call (on an empty cache) invokes the fetch once and stores the
whole catalog under the single cache key; the second call invokes the
fetch zero times, returns the same answer, and leaves the cache entry
unchanged. -/
theorem metadata_cached_single_request (id : String) (t1 t2 : Nat)
    (response : Option HttpResponse) (error : Option String)
    (h : t2 - t1 < 120000) :
    (getExtensionMetadata id t1 response error ⟨none⟩).2.2 = 1 ∧
    (getExtensionMetadata id t2 response error
        (getExtensionMetadata id t1 response error ⟨none⟩).2.1).2.2 = 0 ∧
    (getExtensionMetadata id t2 response error
        (getExtensionMetadata id t1 response error ⟨none⟩).2.1).1 =
      (getExtensionMetadata id t1 response error ⟨none⟩).1 ∧
    (getExtensionMetadata id t2 response error
        (getExtensionMetadata id t1 response error ⟨none⟩).2.1).2.1 =
      (getExtensionMetadata id t1 response error ⟨none⟩).2.1 := by
  rcases hv : fetchExtensionMetadata response error with ⟨dat, err⟩
  have h1 : getExtensionMetadata id t1 response error ⟨none⟩ =
      ((match err with
        | some e => (none, some e)
        | none => (dat.bind (fun c => alistGet c id), none)),
       ⟨some (t1, (dat, err))⟩, 1) := by
    unfold getExtensionMetadata cacheCall
    simp only [hv]
    cases err <;> rfl
  have h2 : getExtensionMetadata id t2 response error ⟨some (t1, (dat, err))⟩ =
      ((match err with
        | some e => (none, some e)
        | none => (dat.bind (fun c => alistGet c id), none)),
       ⟨some (t1, (dat, err))⟩, 0) := by
    unfold getExtensionMetadata cacheCall
    simp only [if_pos h]
    cases err <;> rfl
  rw [h1]
  refine ⟨rfl, ?_, ?_, ?_⟩ <;> rw [h2] <;> cases err <;> rfl

/-- Witness for C6: a healthy catalog with the id `welcomer` present and
one tarball URL, queried at times 0 ms and 60000 ms. -/
theorem metadata_cached_single_request_witness :
    (getExtensionMetadata "welcomer" 0
        (some ⟨200, [("welcomer",
          ⟨"welcomer", "Welcomer", "welcomer", "1.0.0",
           ["https://example.com/welcomer.tar.gz"]⟩)]⟩) none ⟨none⟩).2.2 = 1 ∧
    (getExtensionMetadata "welcomer" 60000
        (some ⟨200, [("welcomer",
          ⟨"welcomer", "Welcomer", "welcomer", "1.0.0",
           ["https://example.com/welcomer.tar.gz"]⟩)]⟩) none
        (getExtensionMetadata "welcomer" 0
          (some ⟨200, [("welcomer",
            ⟨"welcomer", "Welcomer", "welcomer", "1.0.0",
             ["https://example.com/welcomer.tar.gz"]⟩)]⟩) none ⟨none⟩).2.1).2.2
      = 0 ∧
    (getExtensionMetadata "welcomer" 60000
        (some ⟨200, [("welcomer",
          ⟨"welcomer", "Welcomer", "welcomer", "1.0.0",
           ["https://example.com/welcomer.tar.gz"]⟩)]⟩) none
        (getExtensionMetadata "welcomer" 0
          (some ⟨200, [("welcomer",
            ⟨"welcomer", "Welcomer", "welcomer", "1.0.0",
             ["https://example.com/welcomer.tar.gz"]⟩)]⟩) none ⟨none⟩).2.1).1 =
      (getExtensionMetadata "welcomer" 0
        (some ⟨200, [("welcomer",
          ⟨"welcomer", "Welcomer", "welcomer", "1.0.0",
           ["https://example.com/welcomer.tar.gz"]⟩)]⟩) none ⟨none⟩).1 ∧
    (getExtensionMetadata "welcomer" 60000
        (some ⟨200, [("welcomer",
          ⟨"welcomer", "Welcomer", "welcomer", "1.0.0",
           ["https://example.com/welcomer.tar.gz"]⟩)]⟩) none
        (getExtensionMetadata "welcomer" 0
          (some ⟨200, [("welcomer",
            ⟨"welcomer", "Welcomer", "welcomer", "1.0.0",
             ["https://example.com/welcomer.tar.gz"]⟩)]⟩) none ⟨none⟩).2.1).2.1 =
      (getExtensionMetadata "welcomer" 0
        (some ⟨200, [("welcomer",
          ⟨"welcomer", "Welcomer", "welcomer", "1.0.0",
           ["https://example.com/welcomer.tar.gz"]⟩)]⟩) none ⟨none⟩).2.1 :=
  metadata_cached_single_request "welcomer" 0 60000
    (some ⟨200, [("welcomer",
      ⟨"welcomer", "Welcomer", "welcomer", "1.0.0",
       ["https://example.com/welcomer.tar.gz"]⟩)]⟩) none (by decide)

/-- C8: when the extensions directory is not configured,
`fetchAndInstallExtension` writes exactly one `E:`-prefixed line to the
output sink, performs no filesystem writes at all (the filesystem state is
returned unchanged), leaves the metadata cache untouched, and aborts the
invocation. -/
theorem install_unset_dir_no_writes (env : InstallEnv) (fs : FS)
    (st : CacheState CatalogFetch) (id : String) (now : Nat)
    (h : env.extensionsPath = none) :
    fetchAndInstallExtension env fs st id now = (fs, [noExtensionsDirMsg], st) ∧
    fatalLines (fetchAndInstallExtension env fs st id now).2.1 =
      [noExtensionsDirMsg] ∧
    (fetchAndInstallExtension env fs st id now).2.1.length = 1 ∧
    (fetchAndInstallExtension env fs st id now).1 = fs := by
  have h1 : fetchAndInstallExtension env fs st id now =
      (fs, [noExtensionsDirMsg], st) := by
    unfold fetchAndInstallExtension
    rw [h]
  refine ⟨h1, ?_, ?_, ?_⟩ <;> rw [h1] <;> rfl

/-- Witness for C8: a concrete invocation with no configured extensions
directory. -/
theorem install_unset_dir_no_writes_witness :
    fetchAndInstallExtension
        ⟨none, true, true, true, true, true, [], none, none⟩
        ⟨["exts/welcomer"], []⟩ ⟨none⟩ "welcomer" 0 =
      (⟨["exts/welcomer"], []⟩, [noExtensionsDirMsg], ⟨none⟩) ∧
    fatalLines (fetchAndInstallExtension
        ⟨none, true, true, true, true, true, [], none, none⟩
        ⟨["exts/welcomer"], []⟩ ⟨none⟩ "welcomer" 0).2.1 = [noExtensionsDirMsg] ∧
    (fetchAndInstallExtension
        ⟨none, true, true, true, true, true, [], none, none⟩
        ⟨["exts/welcomer"], []⟩ ⟨none⟩ "welcomer" 0).2.1.length = 1 ∧
    (fetchAndInstallExtension
        ⟨none, true, true, true, true, true, [], none, none⟩
        ⟨["exts/welcomer"], []⟩ ⟨none⟩ "welcomer" 0).1 = ⟨["exts/welcomer"], []⟩ :=
  install_unset_dir_no_writes
    ⟨none, true, true, true, true, true, [], none, none⟩
    ⟨["exts/welcomer"], []⟩ ⟨none⟩ "welcomer" 0 rfl

/-- Helper: creating a directory preserves existing directories. -/
theorem mem_addDir {fs : FS} {p q : String} (h : q ∈ fs.dirs) :
    q ∈ (addDir fs p).dirs := by
  unfold addDir
  split
  · exact h
  · exact List.mem_append_left _ h

/-- Helper: creating a directory does not touch files. -/
theorem addDir_files (fs : FS) (p : String) : (addDir fs p).files = fs.files := by
  unfold addDir
  split <;> rfl

/-- Helper: creating a directory outside the extensions root leaves the
contents of the extensions root unchanged. -/
theorem underRoot_addDir (root : String) (fs : FS) (p : String)
    (hp : strPref (root ++ "/") p = false) :
    underRoot root (addDir fs p) = underRoot root fs := by
  unfold addDir underRoot
  split
  · rfl
  · simp [List.filter_append, hp]

/-- C7: in the final relocation step of the install pipeline, if the
destination directory `{extensionsRoot}/{shortName}` already exists or the
rename of the extracted subdirectory fails, the pipeline reports the fatal
`E:`-prefixed setup-failure line as its last output line and aborts (no
cleanup line follows), and the pre-existing contents of the extensions
directory — and all files — are unchanged on that failure: an
already-installed extension directory is never overwritten in place and
survives in the filesystem. -/
theorem install_never_overwrites (env : InstallEnv) (fs : FS)
    (ext : ExtensionInfo) (root : String)
    (hpath : env.extensionsPath = some root)
    (htar : env.tarOk = true)
    (hfail : joinPath root ext.shortName ∈ fs.dirs ∨ env.renameOk = false)
    (htmp : strPref (root ++ "/") (extensionTmpDir ext) = false)
    (hsrc : strPref (root ++ "/") (extractedDir ext) = false) :
    (installExtension env fs ext).2 =
      ["Preparing to unpack " ++ ext.name ++ " (" ++ ext.version ++ ")...\n",
       "Unpacking " ++ ext.name ++ " (" ++ ext.version ++ ")...\n",
       "Setting up " ++ ext.name ++ " (" ++ ext.version ++ ")...\n",
       "E: Failed to set up extension: " ++ ext.id ++ "\n"] ∧
    underRoot root (installExtension env fs ext).1 = underRoot root fs ∧
    (installExtension env fs ext).1.files = fs.files ∧
    (joinPath root ext.shortName ∈ fs.dirs →
      joinPath root ext.shortName ∈ (installExtension env fs ext).1.dirs) := by
  have hcond : joinPath root ext.shortName ∈
        (addDir (addDir fs (extensionTmpDir ext)) (extractedDir ext)).dirs ∨
      extractedDir ext ∉
        (addDir (addDir fs (extensionTmpDir ext)) (extractedDir ext)).dirs ∨
      env.renameOk = false := by
    rcases hfail with hdest | hren
    · exact Or.inl (mem_addDir (mem_addDir hdest))
    · exact Or.inr (Or.inr hren)
  have hfs2 : installExtension env fs ext =
      (addDir (addDir fs (extensionTmpDir ext)) (extractedDir ext),
       ["Preparing to unpack " ++ ext.name ++ " (" ++ ext.version ++ ")...\n",
        "Unpacking " ++ ext.name ++ " (" ++ ext.version ++ ")...\n",
        "Setting up " ++ ext.name ++ " (" ++ ext.version ++ ")...\n",
        "E: Failed to set up extension: " ++ ext.id ++ "\n"]) := by
    unfold installExtension
    rw [hpath]
    simp only [htar, Bool.not_true, if_neg (by simp : ¬(false = true))]
    rw [if_pos hcond]
    rfl
  refine ⟨?_, ?_, ?_, ?_⟩ <;> rw [hfs2]
  · show underRoot root (addDir (addDir fs (extensionTmpDir ext))
        (extractedDir ext)) = underRoot root fs
    rw [underRoot_addDir root _ _ hsrc, underRoot_addDir root _ _ htmp]
  · show (addDir (addDir fs (extensionTmpDir ext))
        (extractedDir ext)).files = fs.files
    rw [addDir_files, addDir_files]
  · intro hdest
    show joinPath root ext.shortName ∈
      (addDir (addDir fs (extensionTmpDir ext)) (extractedDir ext)).dirs
    exact mem_addDir (mem_addDir hdest)

/-- Witness for C7, exercising both failure triggers. First, a filesystem
that already contains the installed extension `exts/welcomer` (rename
oracle healthy): the install reports the fatal line last, touches nothing
under `exts/`, and `exts/welcomer` survives. Second, a filesystem with no
pre-existing destination but a failing rename (`renameOk = false`): the
install reports the same fatal line last and leaves the extensions root
and all files unchanged. -/
theorem install_never_overwrites_witness :
    ((installExtension
        ⟨some "exts", true, true, true, true, true, [], none, none⟩
        ⟨["exts/welcomer"], []⟩
        ⟨"welcomer", "Welcomer", "welcomer", "1.0.0", []⟩).2 =
      ["Preparing to unpack Welcomer (1.0.0)...\n",
       "Unpacking Welcomer (1.0.0)...\n",
       "Setting up Welcomer (1.0.0)...\n",
       "E: Failed to set up extension: welcomer\n"] ∧
    underRoot "exts" (installExtension
        ⟨some "exts", true, true, true, true, true, [], none, none⟩
        ⟨["exts/welcomer"], []⟩
        ⟨"welcomer", "Welcomer", "welcomer", "1.0.0", []⟩).1 =
      underRoot "exts" ⟨["exts/welcomer"], []⟩ ∧
    (installExtension
        ⟨some "exts", true, true, true, true, true, [], none, none⟩
        ⟨["exts/welcomer"], []⟩
        ⟨"welcomer", "Welcomer", "welcomer", "1.0.0", []⟩).1.files = [] ∧
    "exts/welcomer" ∈ (installExtension
        ⟨some "exts", true, true, true, true, true, [], none, none⟩
        ⟨["exts/welcomer"], []⟩
        ⟨"welcomer", "Welcomer", "welcomer", "1.0.0", []⟩).1.dirs ∧
    fatalLines (installExtension
        ⟨some "exts", true, true, true, true, true, [], none, none⟩
        ⟨["exts/welcomer"], []⟩
        ⟨"welcomer", "Welcomer", "welcomer", "1.0.0", []⟩).2 =
      ["E: Failed to set up extension: welcomer\n"]) ∧
    ((installExtension
        ⟨some "exts", true, true, false, true, true, [], none, none⟩
        ⟨[], []⟩
        ⟨"welcomer", "Welcomer", "welcomer", "1.0.0", []⟩).2 =
      ["Preparing to unpack Welcomer (1.0.0)...\n",
       "Unpacking Welcomer (1.0.0)...\n",
       "Setting up Welcomer (1.0.0)...\n",
       "E: Failed to set up extension: welcomer\n"] ∧
    underRoot "exts" (installExtension
        ⟨some "exts", true, true, false, true, true, [], none, none⟩
        ⟨[], []⟩
        ⟨"welcomer", "Welcomer", "welcomer", "1.0.0", []⟩).1 =
      underRoot "exts" ⟨[], []⟩ ∧
    (installExtension
        ⟨some "exts", true, true, false, true, true, [], none, none⟩
        ⟨[], []⟩
        ⟨"welcomer", "Welcomer", "welcomer", "1.0.0", []⟩).1.files = [] ∧
    fatalLines (installExtension
        ⟨some "exts", true, true, false, true, true, [], none, none⟩
        ⟨[], []⟩
        ⟨"welcomer", "Welcomer", "welcomer", "1.0.0", []⟩).2 =
      ["E: Failed to set up extension: welcomer\n"]) := by
  have h1 := install_never_overwrites
    ⟨some "exts", true, true, true, true, true, [], none, none⟩
    ⟨["exts/welcomer"], []⟩
    ⟨"welcomer", "Welcomer", "welcomer", "1.0.0", []⟩ "exts"
    rfl rfl (Or.inl (by decide)) (by decide) (by decide)
  have h2 := install_never_overwrites
    ⟨some "exts", true, true, false, true, true, [], none, none⟩
    ⟨[], []⟩
    ⟨"welcomer", "Welcomer", "welcomer", "1.0.0", []⟩ "exts"
    rfl rfl (Or.inr rfl) (by decide) (by decide)
  exact ⟨⟨h1.1, h1.2.1, h1.2.2.1, h1.2.2.2 (by decide), by rw [h1.1]; decide⟩,
         ⟨h2.1, h2.2.1, h2.2.2.1, by rw [h2.1]; decide⟩⟩

end Sudobot
